import Mathlib

/-!
Verification development for the lwm2m-node repository: a Zephyr-based
CoAP/LwM2M demo with a small CoAP server (four on/off resources under
object 42769) in `src/main.c` and a CoAP client in `src/coap_client.c`.
The request handlers, the reply-processing function and the socket close
function are embedded from the source; the CoAP packet codec and the
resource routing live in the Zephyr library (outside this repository)
and are modelled from the specification where a claim needs them.
Bytes are `Nat` values below 256, buffers are `List Nat`.
-/

/-! ## Protocol and errno constants (values of the Zephyr headers the source includes) -/

/-- CoAP message type Confirmable (`COAP_TYPE_CON`). -/
def COAP_TYPE_CON : Nat := 0

/-- CoAP message type Non-confirmable (`COAP_TYPE_NON_CON`). -/
def COAP_TYPE_NON_CON : Nat := 1

/-- CoAP message type Acknowledgement (`COAP_TYPE_ACK`). -/
def COAP_TYPE_ACK : Nat := 2

/-- CoAP method GET (`COAP_METHOD_GET`). -/
def COAP_METHOD_GET : Nat := 1

/-- CoAP method POST (`COAP_METHOD_POST`). -/
def COAP_METHOD_POST : Nat := 2

/-- CoAP method PUT (`COAP_METHOD_PUT`). -/
def COAP_METHOD_PUT : Nat := 3

/-- CoAP method DELETE (`COAP_METHOD_DELETE`). -/
def COAP_METHOD_DELETE : Nat := 4

/-- CoAP response code 2.04 Changed (`COAP_RESPONSE_CODE_CHANGED` = (2 <<< 5) + 4). -/
def COAP_RESPONSE_CODE_CHANGED : Nat := 68

/-- CoAP response code 2.05 Content (`COAP_RESPONSE_CODE_CONTENT` = (2 <<< 5) + 5). -/
def COAP_RESPONSE_CODE_CONTENT : Nat := 69

/-- CoAP response code 4.00 Bad Request (`COAP_RESPONSE_CODE_BAD_REQUEST` = (4 <<< 5)). -/
def COAP_RESPONSE_CODE_BAD_REQUEST : Nat := 128

/-- CoAP option number URI-Path (`COAP_OPTION_URI_PATH`). -/
def COAP_OPTION_URI_PATH : Nat := 11

/-- CoAP option number Content-Format (`COAP_OPTION_CONTENT_FORMAT`). -/
def COAP_OPTION_CONTENT_FORMAT : Nat := 12

/-- Maximum CoAP token length in bytes (`COAP_TOKEN_MAX_LEN`). -/
def COAP_TOKEN_MAX_LEN : Nat := 8

/-- errno value of `EIO` (I/O error) in the Zephyr libc headers. -/
def Eio : Nat := 5

/-- errno value of `EAGAIN` in the Zephyr libc headers. -/
def Eagain : Nat := 11

/-- errno value of `EWOULDBLOCK`; in Zephyr it is defined equal to `EAGAIN`. -/
def Ewouldblock : Nat := 11

/-- errno value of `EINVAL` in the Zephyr libc headers. -/
def Einval : Nat := 22

/-- `src/coap_client.c` line 14: `#define MAX_COAP_MSG_LEN 256`. -/
def MAX_COAP_MSG_LEN : Nat := 256

/-! ## CoAP message data model (spec section 3) -/

/-- A decoded CoAP message: version, type, token bytes, code, 16-bit
message id, options as (option-number, value-bytes) pairs, payload bytes. -/
structure CoapPacket where
  ver : Nat
  type : Nat
  token : List Nat
  code : Nat
  id : Nat
  options : List (Nat × List Nat)
  payload : List Nat
  deriving Repr, DecidableEq

/-! ## Server PUT handler for the state resource (main.c lines 289-310) -/

/-- Embeds the value flow of `on_off_object_state_put` (`src/main.c` 289-310).
Input: the request payload bytes (as returned by `coap_packet_get_payload`)
and the current LED/output state; output: the CoAP response code and the new
output state, or `none` when the handler's behaviour is undefined.
When the payload is empty, `coap_packet_get_payload` returns the null pointer
and 0, and the source calls `strcpy(converted_data, NULL)` on a zero-sized
stack array: undefined behaviour, modelled as `none`.  Otherwise the first
payload byte reaches `converted_data[0]` and each `strncmp(converted_data, _, 1)`
compares exactly that first byte. -/
def on_off_object_state_put (payload : List Nat) (led : Bool) : Option (Nat × Bool) :=
  match payload with
  | [] => none
  | b :: _ =>
    if b = 48 then some (COAP_RESPONSE_CODE_CHANGED, false)
    else if b = 49 then some (COAP_RESPONSE_CODE_CHANGED, true)
    else some (COAP_RESPONSE_CODE_BAD_REQUEST, led)

/-- Size in bytes of the variable-length array `char converted_data[data_len]`
declared by `on_off_object_state_put` (`src/main.c` line 295): exactly the
payload length reported by `coap_packet_get_payload`. -/
def converted_data_size (payload : List Nat) : Nat := payload.length

/-- Number of bytes `strcpy(converted_data, data)` (`src/main.c` line 296)
writes into `converted_data`: `strcpy` copies source bytes up to and
including the first NUL byte.  `src` is the byte sequence in memory starting
at the payload pointer; the count below assumes a NUL sits immediately after
the listed bytes, so for any actual contents of the memory beyond them
`strcpy` writes at least this many bytes. -/
def strcpyBytesWritten : List Nat → Nat
  | [] => 1
  | b :: rest => if b = 0 then 1 else strcpyBytesWritten rest + 1

/-! ## Server PUT handlers for the on, off and switch resources (main.c 325-368) -/

/-- Embeds `on_off_object_on_put` (`src/main.c` 325-330): ignores the request
entirely, sets the output on, returns 2.04 Changed. -/
def on_off_object_on_put (payload : List Nat) (led : Bool) : Nat × Bool :=
  (COAP_RESPONSE_CODE_CHANGED, true)

/-- Embeds `on_off_object_off_put` (`src/main.c` 344-349): ignores the request
entirely, sets the output off, returns 2.04 Changed. -/
def on_off_object_off_put (payload : List Nat) (led : Bool) : Nat × Bool :=
  (COAP_RESPONSE_CODE_CHANGED, false)

/-- Embeds `on_off_object_switch_put` (`src/main.c` 363-368): ignores the
request entirely, toggles the output, returns 2.04 Changed. -/
def on_off_object_switch_put (payload : List Nat) (led : Bool) : Nat × Bool :=
  (COAP_RESPONSE_CODE_CHANGED, !led)

/-! ## Server GET handler for the state resource (main.c 247-284) -/

/-- Embeds the response construction of `on_off_object_state_get`
(`src/main.c` 259-280) at the message level.  From the request it takes the
type, the message id and the token (lines 259-261); the response type is ACK
for a Confirmable request and NON otherwise (line 264); `coap_packet_init`
(line 266) writes version 1, that type, the request's token, code 2.05
Content and the request's id; line 270 appends the Content-Format option
(text/plain = 0, encoded as an empty integer option value).  Lines 276-280
append as payload `sizeof(on_msg)` bytes starting at the chosen string
literal pointer, where `on_msg`/`off_msg` are `const char *` variables, so
the length passed is the size of a pointer, not the string length; `msgMem`
stands for those bytes of memory (first byte 49 i.e. a 1 when the pin reads
on, 48 i.e. a 0 when off, second byte the literal's NUL terminator, the rest
whatever follows the literal in memory). -/
def on_off_object_state_get_response (req : CoapPacket) (msgMem : List Nat) : CoapPacket :=
  { ver := 1
  , type := if req.type = COAP_TYPE_CON then COAP_TYPE_ACK else COAP_TYPE_NON_CON
  , token := req.token
  , code := COAP_RESPONSE_CODE_CONTENT
  , id := req.id
  , options := [(COAP_OPTION_CONTENT_FORMAT, [])]
  , payload := msgMem }

/-! ## CoAP decoder (Zephyr `coap_packet_parse`, modelled from the spec) -/

/-- Modelled from the spec: the standard CoAP extended-value encoding of an
option's delta or length nibble (spec section 4.2): a nibble below 13 is the
value itself; 13 means one extension byte holds value minus 13; 14 means two
extension bytes hold value minus 269 big-endian; 15 is reserved (malformed
outside the payload marker). Returns the decoded value and the remaining
bytes, or `none` on a malformed encoding. -/
def readExtValue (nib : Nat) (bytes : List Nat) : Option (Nat × List Nat) :=
  if nib < 13 then some (nib, bytes)
  else if nib = 13 then
    match bytes with
    | e :: rest => some (13 + e, rest)
    | [] => none
  else if nib = 14 then
    match bytes with
    | e1 :: e2 :: rest => some (269 + e1 * 256 + e2, rest)
    | _ => none
  else none

/-- Modelled from the spec: the option/payload section decoder of the CoAP
codec (spec sections 4.1-4.2), which is Zephyr library code not in this
repository.  Maintains the running option number as the sum of the decoded
deltas; the byte 0xFF switches to payload, which must be non-empty
(`EmptyPayloadAfterMarker` otherwise); a 15 nibble in an option header is
malformed (`InvalidOption`).  `fuel` bounds the recursion; every step
consumes at least one byte, so `fuel := bytes.length` never runs out. -/
def parseOptionsAux (fuel : Nat) (running : Nat) (bytes : List Nat) :
    Option (List (Nat × List Nat) × List Nat) :=
  match fuel, bytes with
  | _, [] => some ([], [])
  | 0, _ :: _ => none
  | fuel + 1, b :: rest =>
    if b = 255 then
      if rest.isEmpty then none else some ([], rest)
    else
      match readExtValue (b / 16) rest with
      | none => none
      | some (delta, rest1) =>
        match readExtValue (b % 16) rest1 with
        | none => none
        | some (len, rest2) =>
          if len ≤ rest2.length then
            let num := running + delta
            match parseOptionsAux fuel num (rest2.drop len) with
            | none => none
            | some (opts, payload) => some ((num, rest2.take len) :: opts, payload)
          else none

/-- Modelled from the spec: Zephyr's `coap_packet_parse` (spec section 4.1
Decode), which is library code not in this repository.  Reads the 4-byte
fixed header (version and type in the high bits of byte 0, token length in
its low nibble, code in byte 1, big-endian message id in bytes 2-3), rejects
version differing from 1 and token lengths above 8 or past the end of the
datagram, then decodes the delta-encoded options and the optional
0xFF-marked payload.  Returns the decoded message or `none` on any decode
error (the C function returns 0 on success and a negative errno on error). -/
def coap_packet_parse (bytes : List Nat) : Option CoapPacket :=
  match bytes with
  | b0 :: b1 :: b2 :: b3 :: rest =>
    let ver := b0 / 64
    let typ := (b0 / 16) % 4
    let tkl := b0 % 16
    if ver = 1 ∧ tkl ≤ 8 ∧ tkl ≤ rest.length then
      match parseOptionsAux (rest.drop tkl).length 0 (rest.drop tkl) with
      | none => none
      | some (opts, payload) =>
        some { ver := ver, type := typ, token := rest.take tkl, code := b1
             , id := b2 * 256 + b3, options := opts, payload := payload }
    else none
  | _ => none

/-! ## Client reply processing (coap_client.c lines 20-59) -/

/-- Outcome of the `recv(sock, data, MAX_COAP_MSG_LEN, MSG_DONTWAIT)` call in
`process_simple_coap_reply`: 0 bytes (peer closed), a negative return with
the given errno, or a datagram of bytes. -/
inductive RecvResult where
  | closed
  | err (errno : Nat)
  | data (bytes : List Nat)
  deriving Repr, DecidableEq

/-- Embeds `process_simple_coap_reply` (`src/coap_client.c` 20-59), assuming
the `k_malloc` of the receive buffer succeeds.  `recv` returning 0 yields
`-EIO`; a negative `recv` with errno EAGAIN or EWOULDBLOCK yields 0 and any
other errno yields `-errno`; received bytes are passed to
`coap_packet_parse` and its result is returned: 0 on a successful parse,
`-EINVAL` on a decode failure.  No token of the received message is ever
inspected or compared against the pending request. -/
def process_simple_coap_reply (r : RecvResult) : Int :=
  match r with
  | .closed => -(Eio : Int)
  | .err errno => if errno = Eagain ∨ errno = Ewouldblock then 0 else -(errno : Int)
  | .data bytes =>
    match coap_packet_parse bytes with
    | some _ => 0
    | none => -(Einval : Int)

/-! ## Client socket close (coap_client.c lines 243-248) -/

/-- Client-side transport state: the file-scope `sock` variable of
`src/coap_client.c` line 12 together with the set of file descriptors the
kernel currently holds open for this process (the externally observable
"socket released" state; a descriptor is open at most once). -/
structure ClientState where
  sock : Int
  openFds : Finset Int
  deriving DecidableEq

/-- The kernel's `close(fd)`: releases the descriptor when it is open and
fails with EBADF (no state change) when it is not; `close_socket` ignores
the return value either way. -/
def kernelClose (fds : Finset Int) (fd : Int) : Finset Int := fds.erase fd

/-- Embeds `close_socket` (`src/coap_client.c` 243-248): calls `close(sock)`
ignoring its result and returns 0.  The `sock` variable itself is not
reset. -/
def close_socket (s : ClientState) : ClientState × Int :=
  ({ s with openFds := kernelClose s.openFds s.sock }, 0)

/-! ## Server resource registrations (main.c 315-377) and routing -/

/-- Identifies the handler functions registered in `src/main.c`. -/
inductive HandlerId where
  | stateGet
  | statePut
  | onPut
  | offPut
  | switchPut
  deriving Repr, DecidableEq

/-- A registered CoAP resource: URI path segments and the optional handler
per method, as laid out by Zephyr's `struct coap_resource` initialised by
each `COAP_RESOURCE_DEFINE` in `src/main.c`. -/
structure CoapResource where
  path : List String
  get : Option HandlerId
  post : Option HandlerId
  put : Option HandlerId
  del : Option HandlerId
  deriving Repr, DecidableEq

/-- `src/main.c` 315-320: the state resource at 42769/0/1 with GET and PUT
handlers. -/
def on_off_object_state_resource : CoapResource :=
  { path := ["42769", "0", "1"], get := some .stateGet, post := none
  , put := some .statePut, del := none }

/-- `src/main.c` 335-339: the on resource at 42769/0/2 with only a PUT
handler. -/
def on_off_object_on_resource : CoapResource :=
  { path := ["42769", "0", "2"], get := none, post := none
  , put := some .onPut, del := none }

/-- `src/main.c` 354-358: the off resource at 42769/0/3 with only a PUT
handler. -/
def on_off_object_off_resource : CoapResource :=
  { path := ["42769", "0", "3"], get := none, post := none
  , put := some .offPut, del := none }

/-- `src/main.c` 373-377: the switch resource at 42769/0/4 with only a PUT
handler. -/
def on_off_object_switch_resource : CoapResource :=
  { path := ["42769", "0", "4"], get := none, post := none
  , put := some .switchPut, del := none }

/-- The resources registered against the `coap_server` service by the four
`COAP_RESOURCE_DEFINE` invocations in `src/main.c`. -/
def coap_server_resources : List CoapResource :=
  [ on_off_object_state_resource, on_off_object_on_resource
  , on_off_object_off_resource, on_off_object_switch_resource ]

/-- The handler a resource registers for a given CoAP method code. -/
def resourceHandlerFor (r : CoapResource) (method : Nat) : Option HandlerId :=
  if method = COAP_METHOD_GET then r.get
  else if method = COAP_METHOD_POST then r.post
  else if method = COAP_METHOD_PUT then r.put
  else if method = COAP_METHOD_DELETE then r.del
  else none

/-- Result of routing a request: the invoked handler, 4.04 Not Found for an
unregistered path, or 4.05 Method Not Allowed for a registered path with no
handler for the method. -/
inductive DispatchResult where
  | handler (h : HandlerId)
  | notFound
  | methodNotAllowed
  deriving Repr, DecidableEq

/-- Modelled from the spec: the resource router's `Dispatch` (spec section
4.4), implemented by the Zephyr CoAP server which is library code not in
this repository.  Exact-segment lookup of the request path among the
registered resources: no matching path yields NotFound; a matching path
with no handler registered for the method yields MethodNotAllowed;
otherwise the registered handler is invoked. -/
def dispatch (resources : List CoapResource) (path : List String) (method : Nat) :
    DispatchResult :=
  match resources.find? (fun r => r.path == path) with
  | none => .notFound
  | some r =>
    match resourceHandlerFor r method with
    | none => .methodNotAllowed
    | some h => .handler h

/-! ## Bounded client message buffers (coap_client.c, spec sections 4.1 and 6) -/

/-- A client message buffer: its capacity (`max_len` passed to
`coap_packet_init`) and the number of bytes written so far (the packet's
`offset`). -/
structure CoapBuffer where
  maxLen : Nat
  offset : Nat
  deriving Repr, DecidableEq

/-- Size in bytes of the wire encoding of one option header nibble value,
beyond the first byte: the standard CoAP extended-value encoding (spec
section 4.2). -/
def extValueLen (v : Nat) : Nat :=
  if v < 13 then 0 else if v < 269 then 1 else 2

/-- Modelled from the spec: Zephyr's `coap_packet_init` (library code not in
this repository), per spec section 4.1 Encode: writes the 4-byte fixed
header followed by the token, failing (`TokenTooLong` / `BufferTooSmall`)
rather than writing past the buffer. -/
def coap_packet_init (maxLen tkl : Nat) : Option CoapBuffer :=
  if tkl ≤ 8 ∧ 4 + tkl ≤ maxLen then some ⟨maxLen, 4 + tkl⟩ else none

/-- Modelled from the spec: Zephyr's `coap_packet_append_option` (library
code not in this repository), per spec section 4.2: one header byte, the
extended delta and length encodings, then the value bytes; fails rather
than exceeding the buffer. -/
def coap_packet_append_option (b : CoapBuffer) (delta len : Nat) : Option CoapBuffer :=
  let need := 1 + extValueLen delta + extValueLen len + len
  if b.offset + need ≤ b.maxLen then some ⟨b.maxLen, b.offset + need⟩ else none

/-- Modelled from the spec: Zephyr's `coap_packet_append_payload_marker`
(library code not in this repository): appends the single 0xFF marker byte,
failing rather than exceeding the buffer. -/
def coap_packet_append_payload_marker (b : CoapBuffer) : Option CoapBuffer :=
  if b.offset + 1 ≤ b.maxLen then some ⟨b.maxLen, b.offset + 1⟩ else none

/-- Modelled from the spec: Zephyr's `coap_packet_append_payload` (library
code not in this repository): appends `len` payload bytes, failing rather
than exceeding the buffer. -/
def coap_packet_append_payload (b : CoapBuffer) (len : Nat) : Option CoapBuffer :=
  if b.offset + len ≤ b.maxLen then some ⟨b.maxLen, b.offset + len⟩ else none

/-- One buffer-writing operation of the client's request-building code
(`matter_on_off_toggle_put`, `matter_on_off_ontime_put`,
`matter_on_off_onoff_get` in `src/coap_client.c`). -/
inductive CoapBufOp where
  | appendOption (delta len : Nat)
  | marker
  | payload (len : Nat)
  deriving Repr, DecidableEq

/-- Applies one buffer-writing operation. -/
def applyBufOp (b : CoapBuffer) : CoapBufOp → Option CoapBuffer
  | .appendOption delta len => coap_packet_append_option b delta len
  | .marker => coap_packet_append_payload_marker b
  | .payload len => coap_packet_append_payload b len

/-- Runs a sequence of buffer-writing operations, stopping at the first
failure. -/
def runBufOps (b : CoapBuffer) : List CoapBufOp → Option CoapBuffer
  | [] => some b
  | op :: ops =>
    match applyBufOp b op with
    | none => none
    | some b1 => runBufOps b1 ops

/-- Number of bytes `recv(sock, data, MAX_COAP_MSG_LEN, MSG_DONTWAIT)`
(`src/coap_client.c` line 32) writes into the receive buffer when a datagram
of `n` bytes is delivered: the kernel truncates at the caller's length. -/
def recvBytesWritten (cap n : Nat) : Nat := min cap n

/-! ## Concrete datagrams used to exercise the client reply path -/

/-- A token value for the client's one in-flight request (the source records
no pending token anywhere; this stands for the token the last request was
sent with, produced by `coap_next_token()`). -/
def pending_request_token : List Nat := [170]

/-- A well-formed CoAP datagram whose token `[187]` differs from
`pending_request_token`: version 1, type ACK, token length 1 (byte 0 is
0x61), code 2.05 Content, message id 1, token byte 0xBB, no options, no
payload. -/
def stray_reply_datagram : List Nat := [97, 69, 0, 1, 187]

/-- The same well-formed CoAP datagram but carrying the pending token
`[170]` (0xAA). -/
def matching_reply_datagram : List Nat := [97, 69, 0, 1, 170]

/-- A minimal well-formed CoAP datagram: version 1, type ACK, token length
0, code 2.05 Content, message id 2, nothing further. -/
def empty_ack_datagram : List Nat := [96, 69, 0, 2]

/-! ## Helper lemmas -/

/-- strcpy always writes at least the terminating NUL byte. -/
theorem strcpyBytesWritten_pos (src : List Nat) : 1 ≤ strcpyBytesWritten src := by
  cases src with
  | nil => exact Nat.le_refl 1
  | cons b rest =>
    unfold strcpyBytesWritten
    split
    · exact Nat.le_refl 1
    · exact Nat.le_add_left 1 _

/-- A successful buffer-writing step preserves the capacity and lands the
new offset within it. -/
theorem applyBufOp_bound (b b1 : CoapBuffer) (op : CoapBufOp)
    (h : applyBufOp b op = some b1) :
    b1.maxLen = b.maxLen ∧ b1.offset ≤ b.maxLen := by
  cases op with
  | appendOption delta len =>
    simp only [applyBufOp, coap_packet_append_option] at h
    by_cases hc : b.offset + (1 + extValueLen delta + extValueLen len + len) ≤ b.maxLen
    · rw [if_pos hc] at h
      cases h
      exact ⟨rfl, hc⟩
    · rw [if_neg hc] at h
      cases h
  | marker =>
    simp only [applyBufOp, coap_packet_append_payload_marker] at h
    by_cases hc : b.offset + 1 ≤ b.maxLen
    · rw [if_pos hc] at h
      cases h
      exact ⟨rfl, hc⟩
    · rw [if_neg hc] at h
      cases h
  | payload len =>
    simp only [applyBufOp, coap_packet_append_payload] at h
    by_cases hc : b.offset + len ≤ b.maxLen
    · rw [if_pos hc] at h
      cases h
      exact ⟨rfl, hc⟩
    · rw [if_neg hc] at h
      cases h

/-- Every sequence of buffer-writing operations of the modelled encoder
preserves the buffer capacity and keeps the write offset within it. -/
theorem runBufOps_preserves_bound (ops : List CoapBufOp) :
    ∀ b b' : CoapBuffer, b.offset ≤ b.maxLen → runBufOps b ops = some b' →
      b'.maxLen = b.maxLen ∧ b'.offset ≤ b'.maxLen := by
  induction ops with
  | nil =>
    intro b b' hb hrun
    cases hrun
    exact ⟨rfl, hb⟩
  | cons op ops ih =>
    intro b b' hb hrun
    simp only [runBufOps] at hrun
    cases hstep : applyBufOp b op with
    | none => rw [hstep] at hrun; cases hrun
    | some b1 =>
      rw [hstep] at hrun
      obtain ⟨h1, h2⟩ := applyBufOp_bound b b1 op hstep
      obtain ⟨h3, h4⟩ := ih b1 b' (h1 ▸ h2) hrun
      exact ⟨h3.trans h1, h4⟩

/-! ## Claim theorems -/

/-- Claim C1, evaluation of the embedded PUT handler of the state resource:
payload "0" yields 2.04 Changed with the output set off and payload "1"
yields 2.04 Changed with the output set on, and payload "2" yields 4.00
Bad Request with the output unchanged, as the claim states; but on the
empty payload the handler does not return 4.00 Bad Request: it passes the
NULL pointer returned by `coap_packet_get_payload` to `strcpy` (undefined
behaviour, modelled as `none`). -/
theorem on_off_object_state_put_eval :
    (∀ led, on_off_object_state_put [48] led = some (COAP_RESPONSE_CODE_CHANGED, false)) ∧
    (∀ led, on_off_object_state_put [49] led = some (COAP_RESPONSE_CODE_CHANGED, true)) ∧
    (∀ led, on_off_object_state_put [50] led = some (COAP_RESPONSE_CODE_BAD_REQUEST, led)) ∧
    (∀ led, on_off_object_state_put [] led = none) :=
  ⟨fun _ => rfl, fun _ => rfl, fun _ => rfl, fun _ => rfl⟩

/-- Claim C2: the copy of the payload into the handler's local buffer does
not stay within bounds.  Even for the valid one-byte payload "0", and even
in the most favourable memory layout (a NUL byte immediately after the
payload), `strcpy` writes strictly more bytes than the size of
`char converted_data[data_len]`; and on the empty payload the handler
invokes `strcpy` on a NULL source (undefined behaviour, modelled as
`none`) instead of rejecting explicitly. -/
theorem on_off_object_state_put_strcpy_overflow :
    (∀ rest : List Nat, converted_data_size [48] < strcpyBytesWritten (48 :: rest)) ∧
    (∀ led, on_off_object_state_put [] led = none) := by
  constructor
  · intro rest
    show 1 < strcpyBytesWritten (48 :: rest)
    unfold strcpyBytesWritten
    split
    case isTrue h => exact absurd h (by decide)
    case isFalse h => exact Nat.lt_add_of_pos_left (strcpyBytesWritten_pos rest)
  · intro _
    rfl

/-- Claim C3 counterexample: a well-formed inbound datagram whose token
`[187]` differs from the pending request's token is not discarded by
`process_simple_coap_reply`: the function returns 0 — exactly the result
it returns for a datagram carrying the pending token — so the wait ends
and the stray datagram is yielded to the caller as the decoded reply. -/
theorem process_reply_accepts_mismatched_token :
    (coap_packet_parse stray_reply_datagram).map CoapPacket.token = some [187] ∧
    pending_request_token ≠ [187] ∧
    process_simple_coap_reply (.data stray_reply_datagram) = 0 ∧
    process_simple_coap_reply (.data stray_reply_datagram) =
      process_simple_coap_reply (.data matching_reply_datagram) :=
  ⟨rfl, by decide, rfl, rfl⟩

/-- Claim C3 as amended: the client reply path performs no token
comparison; every inbound datagram that parses as a CoAP message ends the
receive attempt with result 0, regardless of its token. -/
theorem process_reply_ignores_pending_token (bytes : List Nat) (pkt : CoapPacket)
    (h : coap_packet_parse bytes = some pkt) :
    process_simple_coap_reply (.data bytes) = 0 := by
  simp only [process_simple_coap_reply, h]

/-- Witness for the amended claim C3 at the stray-token datagram. -/
theorem process_reply_ignores_pending_token_witness :
    process_simple_coap_reply (.data stray_reply_datagram) = 0 :=
  process_reply_ignores_pending_token stray_reply_datagram
    { ver := 1, type := 2, token := [187], code := 69, id := 1
    , options := [], payload := [] } rfl

/-- Claim C4 counterexample: "no data yet" (recv failing with EAGAIN) and a
successfully parsed reply both make `process_simple_coap_reply` return 0,
so the two outcomes are not distinguishable by the returned value; also a
recv error with errno EIO returns the same value as "connection closed". -/
theorem process_reply_conflates_no_data_with_reply :
    process_simple_coap_reply (.err Eagain) = 0 ∧
    coap_packet_parse empty_ack_datagram ≠ none ∧
    process_simple_coap_reply (.data empty_ack_datagram) = 0 ∧
    process_simple_coap_reply .closed = process_simple_coap_reply (.err Eio) :=
  ⟨rfl, by decide, rfl, rfl⟩

/-- Claim C4 as amended, the actual return-value mapping of
`process_simple_coap_reply`: -EIO for connection closed, 0 for
EAGAIN/EWOULDBLOCK, -errno for any other recv error, 0 for a successfully
parsed reply and a negative decode-error value for an unparsable one;
"no data yet" and a successfully parsed reply both return 0 and are not
distinguishable, and "connection closed" coincides with a recv error whose
errno is EIO. -/
theorem process_simple_coap_reply_return_values :
    process_simple_coap_reply .closed = -(Eio : Int) ∧
    (∀ e, (e = Eagain ∨ e = Ewouldblock) → process_simple_coap_reply (.err e) = 0) ∧
    (∀ e, ¬(e = Eagain ∨ e = Ewouldblock) → process_simple_coap_reply (.err e) = -(e : Int)) ∧
    (∀ bytes pkt, coap_packet_parse bytes = some pkt →
      process_simple_coap_reply (.data bytes) = 0) ∧
    (∀ bytes, coap_packet_parse bytes = none →
      process_simple_coap_reply (.data bytes) = -(Einval : Int)) := by
  refine ⟨rfl, ?_, ?_, ?_, ?_⟩
  · intro e he
    simp only [process_simple_coap_reply, if_pos he]
  · intro e he
    simp only [process_simple_coap_reply, if_neg he]
  · intro bytes pkt h
    simp only [process_simple_coap_reply, h]
  · intro bytes h
    simp only [process_simple_coap_reply, h]

/-- Witness for the amended claim C4 at concrete recv outcomes. -/
theorem process_simple_coap_reply_return_values_witness :
    process_simple_coap_reply (.err 11) = 0 ∧
    process_simple_coap_reply (.err 111) = -111 ∧
    process_simple_coap_reply (.data empty_ack_datagram) = 0 ∧
    process_simple_coap_reply (.data [99]) = -(Einval : Int) :=
  ⟨process_simple_coap_reply_return_values.2.1 11 (Or.inl rfl),
   process_simple_coap_reply_return_values.2.2.1 111 (by decide),
   process_simple_coap_reply_return_values.2.2.2.1 empty_ack_datagram
     { ver := 1, type := 2, token := [], code := 69, id := 2
     , options := [], payload := [] } rfl,
   process_simple_coap_reply_return_values.2.2.2.2 [99] rfl⟩

/-- Claim C5: routing is exact over the resources registered in
`src/main.c`: a GET to 42769/0/1 invokes exactly the registered GET
handler `on_off_object_state_get`; a PUT to the unregistered path
42769/0/99 is NotFound; a DELETE to the registered path 42769/0/1 and a
GET to 42769/0/2 (which registers only PUT) are MethodNotAllowed. -/
theorem coap_server_routing_exact :
    dispatch coap_server_resources ["42769", "0", "1"] COAP_METHOD_GET =
      .handler .stateGet ∧
    dispatch coap_server_resources ["42769", "0", "99"] COAP_METHOD_PUT = .notFound ∧
    dispatch coap_server_resources ["42769", "0", "1"] COAP_METHOD_DELETE =
      .methodNotAllowed ∧
    dispatch coap_server_resources ["42769", "0", "2"] COAP_METHOD_GET =
      .methodNotAllowed := by
  refine ⟨?_, ?_, ?_, ?_⟩ <;> decide

/-- Claim C6: the response built by the state resource's GET handler
carries exactly the request's token and message id, and its type is ACK
when the request was Confirmable and NON otherwise. -/
theorem on_off_object_state_get_echoes_request (req : CoapPacket) (msgMem : List Nat)
    (h : req.token.length ≤ COAP_TOKEN_MAX_LEN) :
    (on_off_object_state_get_response req msgMem).token = req.token ∧
    (on_off_object_state_get_response req msgMem).id = req.id ∧
    (on_off_object_state_get_response req msgMem).type =
      (if req.type = COAP_TYPE_CON then COAP_TYPE_ACK else COAP_TYPE_NON_CON) :=
  ⟨rfl, rfl, rfl⟩

/-- Witness for claim C6 at a concrete Confirmable request. -/
theorem on_off_object_state_get_echoes_request_witness :
    (on_off_object_state_get_response
        { ver := 1, type := 0, token := [170], code := 1, id := 7
        , options := [], payload := [] } [49, 0, 0, 0]).token = [170] ∧
    (on_off_object_state_get_response
        { ver := 1, type := 0, token := [170], code := 1, id := 7
        , options := [], payload := [] } [49, 0, 0, 0]).id = 7 ∧
    (on_off_object_state_get_response
        { ver := 1, type := 0, token := [170], code := 1, id := 7
        , options := [], payload := [] } [49, 0, 0, 0]).type = COAP_TYPE_ACK :=
  on_off_object_state_get_echoes_request
    { ver := 1, type := 0, token := [170], code := 1, id := 7
    , options := [], payload := [] } [49, 0, 0, 0] (by decide)

/-- Claim C7: `close_socket` is idempotent: from any client state, calling
it twice yields the same externally observable state (released descriptor,
return value 0) as calling it once. -/
theorem close_socket_idempotent (s : ClientState) :
    close_socket (close_socket s).1 = close_socket s := by
  simp only [close_socket, kernelClose]
  rw [Finset.erase_idem]

/-- Claim C8: the client's message buffers are bounded at
`MAX_COAP_MSG_LEN` = 256 bytes (the size `k_malloc`ed for every request
and reply buffer in `src/coap_client.c`), and every write into such a
buffer stays within the bound or fails: packet init never yields an
offset past the capacity, each append preserves the bound or returns an
error leaving no oversized buffer, and recv truncates at the 256-byte
capacity it is called with. -/
theorem client_message_buffers_bounded :
    MAX_COAP_MSG_LEN = 256 ∧
    (∀ tkl b, coap_packet_init MAX_COAP_MSG_LEN tkl = some b →
      b.maxLen = 256 ∧ b.offset ≤ 256) ∧
    (∀ (b b' : CoapBuffer) (ops : List CoapBufOp), b.offset ≤ b.maxLen →
      runBufOps b ops = some b' → b'.maxLen = b.maxLen ∧ b'.offset ≤ b'.maxLen) ∧
    (∀ n, recvBytesWritten MAX_COAP_MSG_LEN n ≤ 256) := by
  refine ⟨rfl, ?_, ?_, ?_⟩
  · intro tkl b hinit
    simp only [coap_packet_init] at hinit
    split at hinit
    case isTrue h =>
      cases hinit
      exact ⟨rfl, h.2⟩
    case isFalse h => cases hinit
  · intro b b' ops hb hrun
    exact runBufOps_preserves_bound ops b b' hb hrun
  · intro n
    exact Nat.min_le_left _ _

/-- Witness for claim C8: packet init with the maximal 8-byte token and a
URI-Path option, payload marker and payload appended into a 256-byte
buffer. -/
theorem client_message_buffers_bounded_witness :
    (({ maxLen := 256, offset := 12 } : CoapBuffer).maxLen = 256 ∧
      ({ maxLen := 256, offset := 12 } : CoapBuffer).offset ≤ 256) ∧
    (({ maxLen := 256, offset := 21 } : CoapBuffer).maxLen =
        ({ maxLen := 256, offset := 12 } : CoapBuffer).maxLen ∧
      ({ maxLen := 256, offset := 21 } : CoapBuffer).offset ≤
        ({ maxLen := 256, offset := 21 } : CoapBuffer).maxLen) ∧
    recvBytesWritten MAX_COAP_MSG_LEN 1000 ≤ 256 :=
  ⟨client_message_buffers_bounded.2.1 8 { maxLen := 256, offset := 12 } rfl,
   client_message_buffers_bounded.2.2.1 { maxLen := 256, offset := 12 }
     { maxLen := 256, offset := 21 } [.appendOption 11 5, .marker, .payload 2]
     (by decide) rfl,
   client_message_buffers_bounded.2.2.2 1000⟩

/-- Claim C9: the PUT handlers of the on, off and switch resources ignore
the request payload entirely: whatever the payload and the current output
state, they return 2.04 Changed (never 4.00 Bad Request) and apply their
effect (set on, set off, toggle). -/
theorem side_effect_put_handlers_ignore_payload :
    (∀ payload led, on_off_object_on_put payload led =
      (COAP_RESPONSE_CODE_CHANGED, true)) ∧
    (∀ payload led, on_off_object_off_put payload led =
      (COAP_RESPONSE_CODE_CHANGED, false)) ∧
    (∀ payload led, on_off_object_switch_put payload led =
      (COAP_RESPONSE_CODE_CHANGED, !led)) ∧
    COAP_RESPONSE_CODE_CHANGED ≠ COAP_RESPONSE_CODE_BAD_REQUEST :=
  ⟨fun _ _ => rfl, fun _ _ => rfl, fun _ _ => rfl, by decide⟩

/-- Claim C10: the state resource's GET handler appends a payload of
`sizeof(const char *)` bytes (4 or 8, the pointer size), never of length
1, so the response payload is never exactly the single-character string
"0" (byte 0x30) or "1" (byte 0x31). -/
theorem on_off_object_state_get_payload_pointer_sized (req : CoapPacket)
    (msgMem : List Nat) (h : msgMem.length = 4 ∨ msgMem.length = 8) :
    (on_off_object_state_get_response req msgMem).payload.length = msgMem.length ∧
    (on_off_object_state_get_response req msgMem).payload.length ≠ 1 ∧
    (on_off_object_state_get_response req msgMem).payload ≠ [48] ∧
    (on_off_object_state_get_response req msgMem).payload ≠ [49] := by
  have hlen : msgMem.length ≠ 1 := by
    rcases h with h | h <;> omega
  exact ⟨rfl, hlen,
    fun hc => hlen (congrArg List.length (show msgMem = [48] from hc)),
    fun hc => hlen (congrArg List.length (show msgMem = [49] from hc))⟩

/-- Witness for claim C10 on a 32-bit target (pointer size 4). -/
theorem on_off_object_state_get_payload_pointer_sized_witness :
    (on_off_object_state_get_response
        { ver := 1, type := 0, token := [], code := 1, id := 3
        , options := [], payload := [] } [49, 0, 0, 0]).payload.length = 4 ∧
    (on_off_object_state_get_response
        { ver := 1, type := 0, token := [], code := 1, id := 3
        , options := [], payload := [] } [49, 0, 0, 0]).payload.length ≠ 1 ∧
    (on_off_object_state_get_response
        { ver := 1, type := 0, token := [], code := 1, id := 3
        , options := [], payload := [] } [49, 0, 0, 0]).payload ≠ [48] ∧
    (on_off_object_state_get_response
        { ver := 1, type := 0, token := [], code := 1, id := 3
        , options := [], payload := [] } [49, 0, 0, 0]).payload ≠ [49] :=
  on_off_object_state_get_payload_pointer_sized
    { ver := 1, type := 0, token := [], code := 1, id := 3
    , options := [], payload := [] } [49, 0, 0, 0] (Or.inl rfl)
